import Mathlib

/-!
# Verification of the ux-auditor-dashboard session player core

Shallow embedding of the playback-control, layout, annotation-window,
upload-validation and auth-callback logic of the repository, with theorems
settling the specification claims about them.

Times, durations and speed multipliers are modelled as rationals (`ℚ`);
the JavaScript numbers involved are exact small decimals, so `ℚ` is faithful.
Calls into the rrweb engine and the published time updates are modelled as an
explicit list of emitted `Action`s, in the order the source issues them.
-/

namespace UxAuditor

/-- An observable effect of a control handler in `VideoPlayer.tsx`:
either a published time update (`onTimeUpdate`) or a call into the
rrweb-player engine (`goto`, `play`, `pause`, `setSpeed`). -/
inductive Action where
  | publish (t : ℚ)
  | goto (t : ℚ)
  | play
  | pause
  | setSpeed (s : ℚ)
  deriving DecidableEq, Repr

/-- The `VideoPlayer` component state relevant to the control handlers:
`playerInstance` is whether the rrweb player has been constructed
(`playerInstance !== null`), `isPlaying` the visible play state, and
`speed` the current playback multiplier. -/
structure PlayerCtl where
  playerInstance : Bool
  isPlaying : Bool
  speed : ℚ
  deriving DecidableEq, Repr

/-- `togglePlay` from `VideoPlayer.tsx`: returns early when there is no
player instance; otherwise pauses the engine when playing, plays it when
paused, and flips the visible state. -/
def togglePlay (s : PlayerCtl) : PlayerCtl × List Action :=
  if s.playerInstance then
    ({ s with isPlaying := !s.isPlaying },
      if s.isPlaying then [Action.pause] else [Action.play])
  else (s, [])

/-- `handleSeek` from `VideoPlayer.tsx`, as a function of the numeric slider
value `time`: it first publishes `time` via `onTimeUpdate`, then (when a
player instance exists) calls `goto time` on the engine and, if the visible
state was playing, calls `play` to undo the implicit pause of `goto`.
No component state is written. -/
def handleSeek (s : PlayerCtl) (time : ℚ) : List Action :=
  Action.publish time ::
    (if s.playerInstance then
      Action.goto time :: (if s.isPlaying then [Action.play] else [])
    else [])

/-- The speed-cycling successor used by `cycleSpeed`:
`speed === 1 ? 2 : speed === 2 ? 4 : speed === 4 ? 0.5 : 1`. -/
def nextSpeed (speed : ℚ) : ℚ :=
  if speed = 1 then 2 else if speed = 2 then 4 else if speed = 4 then 1/2 else 1

/-- `cycleSpeed` from `VideoPlayer.tsx`: returns early when there is no
player instance; otherwise applies the next multiplier to the engine via
`setSpeed` and stores it in component state. -/
def cycleSpeed (s : PlayerCtl) : PlayerCtl × List Action :=
  if s.playerInstance then
    ({ s with speed := nextSpeed s.speed }, [Action.setSpeed (nextSpeed s.speed)])
  else (s, [])

/-- `restart` from `VideoPlayer.tsx`: when a player instance exists, jumps
the engine to time 0, resumes playback, and sets the visible state to
playing; otherwise does nothing. -/
def restart (s : PlayerCtl) : PlayerCtl × List Action :=
  if s.playerInstance then
    ({ s with isPlaying := true }, [Action.goto 0, Action.play])
  else (s, [])

/-- The handler registered for the rrweb `ui-update-player-state` event:
`setIsPlaying(state === 'playing')` for payload `'playing'`, `'paused'`
or `'ended'`. -/
def applyPlayerStateEvent (s : PlayerCtl) (payload : String) : PlayerCtl :=
  { s with isPlaying := payload == "playing" }

/-- One tick of the 50 ms time-sync interval in `VideoPlayer.tsx`, given the
session `duration` and the engine-reported current time `t`
(`internalReplayer.getCurrentTime()`): it publishes `t` via `onTimeUpdate`
unconditionally, and then, if `duration > 0 && t >= duration`, sets the
visible state to paused and pauses the engine. -/
def tick (duration : ℚ) (s : PlayerCtl) (t : ℚ) : PlayerCtl × List Action :=
  if 0 < duration ∧ duration ≤ t then
    ({ s with isPlaying := false }, [Action.publish t, Action.pause])
  else (s, [Action.publish t])

/-- The polling loop driven by the time-sync `useEffect`: the interval exists
only while `isPlaying && playerInstance` (the effect clears it as soon as
either flips), so a tick body runs for a reported time only in that state.
Returns the final state and the number of playing→paused transitions
performed by ticks. -/
def runTicks (duration : ℚ) : PlayerCtl → List ℚ → PlayerCtl × Nat
  | s, [] => (s, 0)
  | s, t :: ts =>
    if s.isPlaying && s.playerInstance then
      let r := tick duration s t
      let rest := runTicks duration r.1 ts
      (rest.1, (if r.1.isPlaying then 0 else 1) + rest.2)
    else runTicks duration s ts

/-- The layout state computed by `updateDimensions` in `VideoPlayer.tsx`. -/
structure LayoutState where
  width : ℚ
  height : ℚ
  scale : ℚ
  marginLeft : ℚ
  marginTop : ℚ
  deriving DecidableEq, Repr

/-- `updateDimensions` from `VideoPlayer.tsx`: fit-screen scaling of the
recorded content (`videoW × videoH`) inside the wrapper
(`availableW × availableH`), preserving aspect ratio and centering. -/
def updateDimensions (availableW availableH videoW videoH : ℚ) : LayoutState :=
  let scale := min (availableW / videoW) (availableH / videoH)
  { width := videoW
    height := videoH
    scale := scale
    marginLeft := (availableW - videoW * scale) / 2
    marginTop := (availableH - videoH * scale) / 2 }

/-- `InsightSeverity` from `types/dashboard.ts`. -/
inductive Severity where
  | low
  | medium
  | critical
  deriving DecidableEq, Repr

/-- `BoundingBox` from `types/dashboard.ts`. -/
structure BoundingBox where
  top : ℚ
  left : ℚ
  width : ℚ
  height : ℚ
  deriving DecidableEq, Repr

/-- `InsightEvent` from `types/dashboard.ts`; `boundingBox` is optional. -/
structure InsightEvent where
  id : String
  timestamp : ℚ
  type : String
  severity : Severity
  message : String
  boundingBox : Option BoundingBox
  deriving DecidableEq, Repr

/-- `activeInsights` from `InsightsPanel.tsx`:
`insights.filter(i => Math.abs(i.timestamp - currentTime) < 1500)`. -/
def activeInsights (insights : List InsightEvent) (currentTime : ℚ) : List InsightEvent :=
  insights.filter (fun i => |i.timestamp - currentTime| < 1500)

/-- `activeOverlays` from the dashboard page:
`insights.filter(i => Math.abs(i.timestamp - currentTime) < 1000 && i.boundingBox)`. -/
def activeOverlays (insights : List InsightEvent) (currentTime : ℚ) : List InsightEvent :=
  insights.filter (fun i => |i.timestamp - currentTime| < 1000 ∧ i.boundingBox.isSome)

/-- A JSON value, the possible results of `JSON.parse` on an upload. -/
inductive Json where
  | null
  | bool (b : Bool)
  | num (q : ℚ)
  | str (s : String)
  | arr (elems : List Json)
  | obj (fields : List (String × Json))

/-- Outcome of the upload flow in the second `FileUploader`'s `processFile`:
either a client-side validation error shown to the user with no network
activity, or the `fetch('/api/ingest', ...)` request being issued. -/
inductive UploadResult where
  | clientError (message : String)
  | ingestRequest
  deriving DecidableEq, Repr

/-- The validation steps of the second `FileUploader`'s `reader.onload`
handler, as a function of the result of `JSON.parse` on the file text
(`none` models a parse exception). Malformed JSON, a non-array value, and
an empty array each stop with `showError(...)` before any fetch; otherwise
the `/api/ingest` request is issued. -/
def processFileContent (parsed : Option Json) : UploadResult :=
  match parsed with
  | none =>
      UploadResult.clientError
        "Erro ao processar o arquivo. Verifique se é um JSON válido."
  | some (Json.arr []) =>
      UploadResult.clientError
        "O arquivo JSON está vazio. Por favor, forneça um array de eventos."
  | some (Json.arr (_ :: _)) => UploadResult.ingestRequest
  | some _ =>
      UploadResult.clientError
        "Estrutura de JSON inválida. Esperado um array de eventos rrweb."

/-- The fields of the OAuth `account` object the jwt callback reads;
`expires_at` is in seconds since the epoch. -/
structure OAuthAccount where
  access_token : Option String
  refresh_token : Option String
  expires_at : Option ℤ
  deriving DecidableEq, Repr

/-- The NextAuth JWT token as used by the callbacks in the auth route;
`expiresAt` is in milliseconds since the epoch. -/
structure JwtToken where
  accessToken : Option String
  refreshToken : Option String
  expiresAt : Option ℤ
  error : Option String
  deriving DecidableEq, Repr

/-- The session object shaped by the session callback. -/
structure Session where
  userPresent : Bool
  accessToken : Option String
  refreshToken : Option String
  error : Option String
  deriving DecidableEq, Repr

/-- The `jwt` callback from the NextAuth config (`now` is `Date.now()` in
milliseconds): on initial login (`account && user` both present) it stores
the account's tokens and expiry (seconds → milliseconds, defaulting to one
hour from now); otherwise it returns the token unchanged while
`Date.now() < Number(token.expiresAt || 0)`, and past expiry returns the
token with `error: "RefreshAccessTokenError"`. -/
def jwtCallback (now : ℤ) (token : JwtToken) (account : Option OAuthAccount)
    (userPresent : Bool) : JwtToken :=
  match account, userPresent with
  | some a, true =>
      { token with
          accessToken := a.access_token
          refreshToken := a.refresh_token
          expiresAt := some (match a.expires_at with
            | some e => e * 1000
            | none => now + 60 * 60 * 1000) }
  | _, _ =>
      if now < (token.expiresAt.getD 0) then token
      else { token with error := some "RefreshAccessTokenError" }

/-- The `session` callback from the NextAuth config: when `session.user` is
present it copies `accessToken`, `refreshToken` and `error` from the JWT
token onto the session. -/
def sessionCallback (session : Session) (token : JwtToken) : Session :=
  if session.userPresent then
    { session with
        accessToken := token.accessToken
        refreshToken := token.refreshToken
        error := token.error }
  else session

/-- Helper: a paused (or instance-less) player processes no further ticks. -/
theorem runTicks_not_playing (d : ℚ) (s : PlayerCtl) (ts : List ℚ)
    (h : s.isPlaying = false) : runTicks d s ts = (s, 0) := by
  induction ts with
  | nil => rfl
  | cons t ts ih => simp [runTicks, h, ih]

/-- A sample insight at timestamp 5000 carrying a bounding box, used to
evaluate the annotation windows at cursor 6400. -/
def sampleInsight : InsightEvent :=
  { id := "i1"
    timestamp := 5000
    type := "usability"
    severity := Severity.critical
    message := "sample"
    boundingBox := some ⟨10, 10, 50, 50⟩ }

/-- C3: for any container and content dimensions, `updateDimensions` computes
the scale as min(containerW/contentW, containerH/contentH) and the centering
offsets as (container − content·scale)/2 on each axis; for container 800×450
and content 1600×900 the scale is 1/2 and both offsets are 0. -/
theorem layoutScaler_scale_and_centering :
    (∀ aw ah vw vh : ℚ,
      (updateDimensions aw ah vw vh).scale = min (aw / vw) (ah / vh) ∧
      (updateDimensions aw ah vw vh).marginLeft
        = (aw - vw * (updateDimensions aw ah vw vh).scale) / 2 ∧
      (updateDimensions aw ah vw vh).marginTop
        = (ah - vh * (updateDimensions aw ah vw vh).scale) / 2) ∧
    updateDimensions 800 450 1600 900
      = { width := 1600, height := 900, scale := 1/2, marginLeft := 0, marginTop := 0 } := by
  refine ⟨fun aw ah vw vh => ⟨rfl, rfl, rfl⟩, ?_⟩
  norm_num [updateDimensions, LayoutState.mk.injEq, min_def]

/-- C4: an annotation is in the side panel's `activeInsights` iff its
timestamp is within 1500 ms of the cursor, and in the on-video
`activeOverlays` iff within 1000 ms and carrying a bounding box; the sample
annotation at timestamp 5000 with cursor 6400 is in the panel but not in the
overlay list. -/
theorem annotation_windows :
    (∀ (insights : List InsightEvent) (cur : ℚ) (i : InsightEvent),
      (i ∈ activeInsights insights cur ↔ i ∈ insights ∧ |i.timestamp - cur| < 1500) ∧
      (i ∈ activeOverlays insights cur ↔
        i ∈ insights ∧ |i.timestamp - cur| < 1000 ∧ i.boundingBox.isSome = true)) ∧
    sampleInsight ∈ activeInsights [sampleInsight] 6400 ∧
    sampleInsight ∉ activeOverlays [sampleInsight] 6400 := by
  have habs : |(5000 : ℚ) - 6400| = 1400 := by
    rw [show (5000 : ℚ) - 6400 = -1400 by norm_num, abs_neg,
      abs_of_nonneg (by norm_num : (0 : ℚ) ≤ 1400)]
  refine ⟨fun insights cur i => ⟨?_, ?_⟩, ?_, ?_⟩
  · simp [activeInsights, List.mem_filter]
  · simp [activeOverlays, List.mem_filter, and_assoc]
  · simp [activeInsights, List.mem_filter, sampleInsight, habs]
    norm_num
  · simp [activeOverlays, List.mem_filter, sampleInsight, habs]
    norm_num

/-- C5: `cycleSpeed` applies the successor multiplier to the engine and
stores it, and the successor follows the cyclic order 1 → 2 → 4 → 0.5 → 1,
so four invocations return every starting value in {1, 2, 4, 0.5} to
itself. -/
theorem cycleSpeed_cyclic_order :
    (∀ (b : Bool) (q : ℚ),
      cycleSpeed ⟨true, b, q⟩
        = (⟨true, b, nextSpeed q⟩, [Action.setSpeed (nextSpeed q)])) ∧
    nextSpeed 1 = 2 ∧ nextSpeed 2 = 4 ∧ nextSpeed 4 = 1/2 ∧ nextSpeed (1/2) = 1 ∧
    nextSpeed (nextSpeed (nextSpeed (nextSpeed 1))) = 1 ∧
    nextSpeed (nextSpeed (nextSpeed (nextSpeed 2))) = 2 ∧
    nextSpeed (nextSpeed (nextSpeed (nextSpeed 4))) = 4 ∧
    nextSpeed (nextSpeed (nextSpeed (nextSpeed (1/2)))) = 1/2 := by
  refine ⟨fun b q => rfl, ?_, ?_, ?_, ?_, ?_, ?_, ?_, ?_⟩ <;>
    norm_num [nextSpeed]

/-- C6: with a player instance present, `handleSeek` first publishes the
target time, then instructs the engine to jump there, and appends an
explicit `play` exactly when playback was active before the seek. -/
theorem handleSeek_publish_goto_resume :
    ∀ (b : Bool) (sp t : ℚ),
      handleSeek ⟨true, b, sp⟩ t
        = [Action.publish t, Action.goto t] ++ (if b then [Action.play] else []) := by
  intro b sp t
  cases b <;> rfl

/-- C7: with a player instance present, `restart` jumps the engine to time
zero, resumes playback, and sets the visible state to playing, for every
prior play/pause state and speed. -/
theorem restart_unconditional_play :
    ∀ (b : Bool) (sp : ℚ),
      restart ⟨true, b, sp⟩ = (⟨true, true, sp⟩, [Action.goto 0, Action.play]) := by
  intro b sp
  rfl

/-- C8: the upload flow issues the `/api/ingest` request exactly for inputs
parsing to a non-empty JSON array; malformed JSON, a non-array value
(e.g. the object `{"a":1}`) and an empty array are each rejected with a
user-facing error message and no request. -/
theorem upload_validation_gates_ingest :
    (∀ parsed : Option Json,
      processFileContent parsed = UploadResult.ingestRequest ↔
        ∃ e es, parsed = some (Json.arr (e :: es))) ∧
    processFileContent none
      = UploadResult.clientError
          "Erro ao processar o arquivo. Verifique se é um JSON válido." ∧
    processFileContent (some (Json.obj [("a", Json.num 1)]))
      = UploadResult.clientError
          "Estrutura de JSON inválida. Esperado um array de eventos rrweb." ∧
    processFileContent (some (Json.arr []))
      = UploadResult.clientError
          "O arquivo JSON está vazio. Por favor, forneça um array de eventos." := by
  refine ⟨fun parsed => ?_, rfl, rfl, rfl⟩
  rcases parsed with _ | j
  · simp [processFileContent]
  · cases j with
    | null => simp [processFileContent]
    | bool b => simp [processFileContent]
    | num q => simp [processFileContent]
    | str s => simp [processFileContent]
    | arr es => cases es <;> simp [processFileContent]
    | obj fs => simp [processFileContent]

/-- C10: without a constructed player instance, `togglePlay`, `cycleSpeed`
and `restart` make no engine call and leave the state (visible play state
and speed multiplier) unchanged. -/
theorem controls_noop_without_instance :
    ∀ (b : Bool) (sp : ℚ),
      togglePlay ⟨false, b, sp⟩ = (⟨false, b, sp⟩, []) ∧
      cycleSpeed ⟨false, b, sp⟩ = (⟨false, b, sp⟩, []) ∧
      restart ⟨false, b, sp⟩ = (⟨false, b, sp⟩, []) := by
  intro b sp
  exact ⟨rfl, rfl, rfl⟩

/-- C1 (counterexample): with duration 1000, a polling tick whose engine
time is 1200 publishes the raw value 1200 (not clamped to the duration),
and a seek to 1200 publishes 1200, never publishes the clamped value 1000,
and re-issues `play` rather than stopping advancement. -/
theorem cursor_clamping_counterexample :
    Action.publish 1200 ∈ (tick 1000 ⟨true, true, 1⟩ 1200).2 ∧
    Action.publish 1200 ∈ handleSeek ⟨true, true, 1⟩ 1200 ∧
    Action.publish 1000 ∉ handleSeek ⟨true, true, 1⟩ 1200 ∧
    Action.play ∈ handleSeek ⟨true, true, 1⟩ 1200 ∧
    ¬ (1200 : ℚ) ≤ 1000 := by
  have htick : tick 1000 (⟨true, true, 1⟩ : PlayerCtl) 1200
      = (⟨true, false, 1⟩, [Action.publish 1200, Action.pause]) := by
    simp [tick]
    norm_num
  refine ⟨?_, ?_, ?_, ?_, by norm_num⟩
  · rw [htick]; simp
  · simp [handleSeek]
  · simp [handleSeek]
  · simp [handleSeek]

/-- C1 (amended): neither the seek handler nor the polling tick clamps the
published time — each publishes the raw slider/engine value — but when a
polled time reaches or exceeds a positive duration the tick pauses playback,
after which the polling loop processes no further ticks; a seek itself
re-issues `play` when playback was active, advancement stopping only at the
next tick. -/
theorem cursor_endstop_amended (d t u : ℚ) (s : PlayerCtl)
    (hi : s.playerInstance = true) (hp : s.isPlaying = true)
    (hd : 0 < d) (ht : d ≤ t) :
    handleSeek s u = [Action.publish u, Action.goto u, Action.play] ∧
    (tick d s t).2 = [Action.publish t, Action.pause] ∧
    (tick d s t).1.isPlaying = false ∧
    ∀ ts, runTicks d (tick d s t).1 ts = ((tick d s t).1, 0) := by
  have htick : tick d s t
      = ({ s with isPlaying := false }, [Action.publish t, Action.pause]) := by
    simp [tick, hd, ht]
  refine ⟨by simp [handleSeek, hi, hp], by rw [htick], by rw [htick], fun ts => ?_⟩
  rw [htick]
  exact runTicks_not_playing d _ ts rfl

/-- Witness for `cursor_endstop_amended` at duration 1000, tick time 1200,
seek target 700, and a playing state with a constructed player. -/
theorem cursor_endstop_amended_witness :
    handleSeek ⟨true, true, 1⟩ 700
      = [Action.publish 700, Action.goto 700, Action.play] ∧
    (tick 1000 ⟨true, true, 1⟩ 1200).2 = [Action.publish 1200, Action.pause] ∧
    (tick 1000 ⟨true, true, 1⟩ 1200).1.isPlaying = false ∧
    runTicks 1000 (tick 1000 ⟨true, true, 1⟩ 1200).1 [1300, 1400]
      = ((tick 1000 ⟨true, true, 1⟩ 1200).1, 0) := by
  have h := cursor_endstop_amended 1000 1200 700 ⟨true, true, 1⟩ rfl rfl
    (by norm_num) (by norm_num)
  exact ⟨h.1, h.2.1, h.2.2.1, h.2.2.2 [1300, 1400]⟩

/-- C2: starting from a playing state with a constructed player and positive
duration, any polled trace containing a time ≥ duration produces exactly one
playing→paused transition, leaves the player paused (so later ticks are not
processed at all), and the `ended` engine report also sets the visible state
to paused. -/
theorem pause_exactly_once (d : ℚ) (s : PlayerCtl) (ts : List ℚ)
    (hp : s.isPlaying = true) (hi : s.playerInstance = true) (hd : 0 < d)
    (hend : ∃ t ∈ ts, d ≤ t) :
    (runTicks d s ts).2 = 1 ∧ (runTicks d s ts).1.isPlaying = false ∧
    (applyPlayerStateEvent s "ended").isPlaying = false := by
  have key : (runTicks d s ts).2 = 1 ∧ (runTicks d s ts).1.isPlaying = false := by
    induction ts with
    | nil => simp at hend
    | cons t ts ih =>
      by_cases hq : d ≤ t
      · have htick : tick d s t
            = (⟨true, false, s.speed⟩, [Action.publish t, Action.pause]) := by
          simp [tick, hd, hq, hi]
        have hrest : runTicks d (⟨true, false, s.speed⟩ : PlayerCtl) ts
            = (⟨true, false, s.speed⟩, 0) :=
          runTicks_not_playing d _ ts rfl
        constructor
        · simp [runTicks, hp, hi, htick, hrest]
        · simp [runTicks, hp, hi, htick, hrest]
      · have htick : tick d s t = (s, [Action.publish t]) := by
          simp [tick, hq]
        have hmem : ∃ u ∈ ts, d ≤ u := by
          rcases hend with ⟨u, hu, hdu⟩
          rcases List.mem_cons.mp hu with rfl | hu'
          · exact absurd hdu hq
          · exact ⟨u, hu', hdu⟩
        have hrec := ih hmem
        constructor
        · simpa [runTicks, hp, hi, htick] using hrec.1
        · simpa [runTicks, hp, hi, htick] using hrec.2
  exact ⟨key.1, key.2, rfl⟩

/-- Witness for `pause_exactly_once` at duration 1000 and polled trace
[500, 1200, 1300]. -/
theorem pause_exactly_once_witness :
    (runTicks 1000 ⟨true, true, 1⟩ [500, 1200, 1300]).2 = 1 ∧
    (runTicks 1000 ⟨true, true, 1⟩ [500, 1200, 1300]).1.isPlaying = false ∧
    (applyPlayerStateEvent ⟨true, true, 1⟩ "ended").isPlaying = false :=
  pause_exactly_once 1000 ⟨true, true, 1⟩ [500, 1200, 1300] rfl rfl
    (by norm_num) ⟨1200, by simp, by norm_num⟩

/-- C9: without fresh OAuth account data, the jwt callback returns a token
whose expiry has passed augmented with the
`error = "RefreshAccessTokenError"` flag (which the session callback then
exposes on a session with a user), and returns a token whose expiry has not
yet passed unchanged. -/
theorem auth_refresh_error_flag (now : ℤ) (token : JwtToken) (u : Bool)
    (sess : Session) (huser : sess.userPresent = true) :
    (token.expiresAt.getD 0 ≤ now →
      jwtCallback now token none u
        = { token with error := some "RefreshAccessTokenError" } ∧
      (sessionCallback sess (jwtCallback now token none u)).error
        = some "RefreshAccessTokenError") ∧
    (now < token.expiresAt.getD 0 → jwtCallback now token none u = token) := by
  constructor
  · intro hexp
    have hj : jwtCallback now token none u
        = { token with error := some "RefreshAccessTokenError" } := by
      simp [jwtCallback, not_lt.mpr hexp]
    exact ⟨hj, by simp [sessionCallback, huser, hj]⟩
  · intro hlt
    simp [jwtCallback, hlt]

/-- Witness for `auth_refresh_error_flag`: a token that expired at epoch-ms
1000, evaluated at `Date.now() = 5000` with no account data, gains the error
flag and the session exposes it. -/
theorem auth_refresh_error_flag_witness :
    jwtCallback 5000 ⟨none, none, some 1000, none⟩ none false
      = ⟨none, none, some 1000, some "RefreshAccessTokenError"⟩ ∧
    (sessionCallback ⟨true, none, none, none⟩
        (jwtCallback 5000 ⟨none, none, some 1000, none⟩ none false)).error
      = some "RefreshAccessTokenError" :=
  (auth_refresh_error_flag 5000 ⟨none, none, some 1000, none⟩ false
      ⟨true, none, none, none⟩ rfl).1 (by norm_num)

end UxAuditor
